import Mathlib

/-!
Shallow embedding of `src/client/ed2/stream2zmq.py` (libstored Python client).

The file models the two classes of that module:
  * `InfiniteStdoutBuffer` — an unbounded producer/consumer output buffer with
    one background worker thread (lines 27-72);
  * `Stream2Zmq` — the stream-relay orchestrator (lines 84-159).

Machine conventions:
  * wall-clock times and timeouts (`time.time()`, `timeout_s`) are rationals;
  * byte strings are `List Nat` (each element a byte 0-255), decoded text is a
    list of Unicode code points;
  * Python operations that can raise are `Except PyError _`;
  * the concurrent worker thread of `InfiniteStdoutBuffer` is sequentialised:
    chunks stay in the queue until a synchronisation point (`flush`, `close`)
    forces the worker to drain them (the maximally-lagging schedule); the
    worker's per-item loop body (lines 70-72) is `workerSteps`.
-/

namespace LibstoredEd2

/-- Python exceptions that the modelled code can raise. -/
inductive PyError where
  | attributeError
  | stopIteration
deriving DecidableEq, Repr

/-! ## Stream2Zmq.poll (stream2zmq.py lines 123-135) -/

/-- The observable state `Stream2Zmq.poll` reads: the result of
`self.isWaiting()`, `self.zmq.lastActivity()`, the configured
`self._timeout_s`, and the current `time.time()`. -/
structure PollState where
  waiting : Bool
  lastActivity : ℚ
  timeoutCfg : ℚ
  now : ℚ
deriving DecidableEq

/-- Events `poll` performs, in order: `self.timeout()` (line 131) and the final
`self.zmq.poll(timeout_s)` call (line 135) with the argument it receives. -/
inductive PollEvent where
  | firedTimeout
  | polledEndpoint (timeout_s : Option ℚ)
deriving DecidableEq

/-- `Stream2Zmq.poll` (lines 123-135), literally: if `isWaiting()`, substitute
the configured default for `None`, compute
`remaining = lastActivity + self._timeout_s - now`; when `remaining <= 0` call
`self.timeout()` first, otherwise clamp to `min(timeout_s, remaining)`; in all
cases finish with `self.zmq.poll(timeout_s)`, whose result is returned.
`zmqPoll` is the external endpoint poll (`ZmqServer.poll`), kept abstract. -/
def Stream2Zmq.poll {ρ : Type} (zmqPoll : Option ℚ → ρ) (s : PollState)
    (timeout_s : Option ℚ) : List PollEvent × ρ :=
  if s.waiting then
    let t : ℚ := timeout_s.getD s.timeoutCfg
    let remaining : ℚ := s.lastActivity + s.timeoutCfg - s.now
    if remaining ≤ 0 then
      ([PollEvent.firedTimeout, PollEvent.polledEndpoint (some t)], zmqPoll (some t))
    else
      ([PollEvent.polledEndpoint (some (min t remaining))], zmqPoll (some (min t remaining)))
  else
    ([PollEvent.polledEndpoint timeout_s], zmqPoll timeout_s)

/-! ## InfiniteStdoutBuffer (stream2zmq.py lines 27-72) -/

/-- State of an `InfiniteStdoutBuffer`: `queue` is `self._queue` (set to `none`
when line 59 assigns `None`), `closed` is `self._closed`, `stdoutLog` is the
sequence of chunks passed to `self.stdout.write` so far (in order),
`stdoutFlushed` records whether `self.stdout.flush()` was the last sink action,
`hasCleanup` is `self._cleanup != None`, `cleanupRuns` counts invocations of
the cleanup callback, and `workerAlive` is whether the worker thread runs. -/
structure BufferState where
  queue : Option (List String)
  closed : Bool
  stdoutLog : List String
  stdoutFlushed : Bool
  hasCleanup : Bool
  cleanupRuns : Nat
  workerAlive : Bool
deriving DecidableEq

/-- A freshly constructed buffer (lines 28-35): empty queue, open, worker
started. -/
def InfiniteStdoutBuffer.mk0 (hasCleanup : Bool) : BufferState :=
  { queue := some [], closed := false, stdoutLog := [], stdoutFlushed := false,
    hasCleanup := hasCleanup, cleanupRuns := 0, workerAlive := true }

/-- `InfiniteStdoutBuffer.write` (lines 37-41): when `self._closed`, write the
chunk synchronously through `self._write` (line 39, which calls
`self.stdout.write`); otherwise enqueue it (`self._queue.put`, line 41), which
raises `AttributeError` when the queue has been discarded. -/
def InfiniteStdoutBuffer.write (s : BufferState) (data : String) :
    Except PyError BufferState :=
  if s.closed then
    Except.ok { s with stdoutLog := s.stdoutLog ++ [data] }
  else
    match s.queue with
    | some q => Except.ok { s with queue := some (q ++ [data]) }
    | none => Except.error PyError.attributeError

/-- One worker-loop iteration per queued chunk (lines 70-72):
`self._write(self._queue.get()); self._queue.task_done()`. The list argument is
the backlog the worker processes; each chunk is written to the sink in FIFO
order. -/
def InfiniteStdoutBuffer.workerSteps : List String → BufferState → BufferState
  | [], s => s
  | d :: rest, s =>
    InfiniteStdoutBuffer.workerSteps rest
      { s with queue := some rest, stdoutLog := s.stdoutLog ++ [d] }

/-- The worker catching up with the whole current backlog; used at the
synchronisation points where `self._queue.join()` (line 48) or
`self._thread.join()` (line 58) waits for it. -/
def InfiniteStdoutBuffer.workerRun (s : BufferState) : BufferState :=
  match s.queue with
  | some q => InfiniteStdoutBuffer.workerSteps q s
  | none => s

/-- `InfiniteStdoutBuffer.flush` (lines 47-48): `self._queue.join()` blocks
until the worker has processed every enqueued chunk; on a discarded queue
(`self._queue == None` after close) the attribute access raises. -/
def InfiniteStdoutBuffer.flush (s : BufferState) : Except PyError BufferState :=
  match s.queue with
  | some _ => Except.ok (InfiniteStdoutBuffer.workerRun s)
  | none => Except.error PyError.attributeError

/-- The externally visible steps of `InfiniteStdoutBuffer.close`, in program
order (lines 54-64). -/
inductive CloseEvent where
  | flushPending
  | markClosed
  | enqueueSentinel
  | joinWorker
  | flushSink
  | runCleanup
deriving DecidableEq

/-- `InfiniteStdoutBuffer.close` (lines 50-64): return at once when already
closed (lines 51-52); otherwise `self.flush()` (line 54), set `self._closed`
(line 55), enqueue the empty wakeup sentinel (`self._queue.put('')`, line 57),
join the worker thread, which drains and writes the sentinel before observing
the closed flag (line 58 with lines 70-72), discard the queue (line 59), flush
the underlying sink (line 61) and invoke the cleanup callback when present
(lines 63-64). Besides the new state, the list of steps taken is returned. -/
def InfiniteStdoutBuffer.close (s : BufferState) :
    Except PyError (BufferState × List CloseEvent) :=
  if s.closed then Except.ok (s, [])
  else
    match InfiniteStdoutBuffer.flush s with
    | Except.error e => Except.error e
    | Except.ok s1 =>
      let s2 := { s1 with closed := true }
      let s3 := { s2 with queue := s2.queue.map (fun q => q ++ [""]) }
      let s4 := { InfiniteStdoutBuffer.workerRun s3 with workerAlive := false }
      let s5 := { s4 with queue := none }
      let s6 := { s5 with stdoutFlushed := true }
      if s.hasCleanup then
        Except.ok ({ s6 with cleanupRuns := s6.cleanupRuns + 1 },
          [CloseEvent.flushPending, CloseEvent.markClosed, CloseEvent.enqueueSentinel,
           CloseEvent.joinWorker, CloseEvent.flushSink, CloseEvent.runCleanup])
      else
        Except.ok (s6,
          [CloseEvent.flushPending, CloseEvent.markClosed, CloseEvent.enqueueSentinel,
           CloseEvent.joinWorker, CloseEvent.flushSink])

/-- `InfiniteStdoutBuffer.__del__` (lines 66-67): finalization just calls
`self.close()`. -/
def InfiniteStdoutBuffer.del (s : BufferState) :
    Except PyError (BufferState × List CloseEvent) :=
  InfiniteStdoutBuffer.close s

/-! ## Stream2Zmq.recvAll (stream2zmq.py lines 137-146) -/

/-- A ZMQError carries an errno (`zmq.ZMQError`). -/
structure ZmqError where
  errno : Nat
deriving DecidableEq

/-- The `zmq.EAGAIN` errno constant (POSIX value 11; only its identity
matters). -/
def zmqEAGAIN : Nat := 11

/-- A drained-once view of a socket for `recvAll`: the frames that successive
`socket.recv(flags=zmq.NOBLOCK)` calls return before the call that raises, and
the `ZMQError` that call raises (EAGAIN when the socket merely would block). -/
structure Socket where
  frames : List (List Nat)
  raisedError : ZmqError
deriving DecidableEq

/-- The `while True` loop of `recvAll` (lines 139-141) together with the
handler: `f` is threaded through an accumulator `acc` so that the order and
multiplicity of its invocations are observable. -/
def Stream2Zmq.recvAllGo {σ : Type} (f : σ → List Nat → σ) (e : ZmqError) :
    σ → List (List Nat) → Except ZmqError σ
  | acc, [] => if e.errno = zmqEAGAIN then Except.ok acc else Except.error e
  | acc, fr :: rest => Stream2Zmq.recvAllGo f e (f acc fr) rest

/-- `Stream2Zmq.recvAll` (lines 137-146): drain the socket, invoking `f` on
each received frame; swallow the terminating `ZMQError` when its errno is
EAGAIN (lines 143-144), re-raise it otherwise (line 146). -/
def Stream2Zmq.recvAll {σ : Type} (sock : Socket) (f : σ → List Nat → σ)
    (acc : σ) : Except ZmqError σ :=
  Stream2Zmq.recvAllGo f sock.raisedError acc sock.frames

/-! ## Stream2Zmq.reset and the cached zmq layer (lines 98-104, 151-156) -/

/-- Which Python class a stack layer is an instance of; only
`protocol.TerminalLayer` membership is tested by `reset` (line 101). -/
inductive LayerKind where
  | zmqLayer
  | terminalLayer
  | otherLayer
deriving DecidableEq

/-- A sink a layer's `fdout` can point to. -/
inductive Sink where
  | orchestratorStdout
  | externalSink (n : Nat)
deriving DecidableEq

/-- A protocol stack layer, as far as `Stream2Zmq` observes it: its class and
its `fdout` attribute. -/
structure Layer where
  kind : LayerKind
  fdout : Option Sink
deriving DecidableEq

/-- The orchestrator state `reset` and the `zmq` property touch:
`self._stack_def` (the stored specification string), `self._stack`, and the
cached `self._zmq`. -/
structure S2ZState where
  stackDef : String
  stack : List Layer
  zmqCache : Option Layer
deriving DecidableEq

/-- The per-layer body of the loop in `reset` (lines 100-102): terminal layers
get `l.fdout = self.stdout`. -/
def Stream2Zmq.installFdout (l : Layer) : Layer :=
  if l.kind = LayerKind.terminalLayer then
    { l with fdout := some Sink.orchestratorStdout }
  else l

/-- `Stream2Zmq.reset` (lines 98-104): rebuild `self._stack` from the stored
specification via `protocol.buildStack` (kept abstract as the parameter
`build`, since the `protocol` module is an external collaborator), install the
orchestrator stdout on every `TerminalLayer`, and invalidate the cached
`self._zmq` (line 104). -/
def Stream2Zmq.reset (build : String → List Layer) (s : S2ZState) : S2ZState :=
  { s with stack := (build s.stackDef).map Stream2Zmq.installFdout,
           zmqCache := none }

/-- The `zmq` property (lines 151-156): on a cache miss take
`next(iter(self._stack))` — the first layer, raising `StopIteration` on an
empty stack — and cache it; on a hit return the cached layer unchanged. The
resulting state is returned alongside the layer. -/
def Stream2Zmq.zmqGet (s : S2ZState) : Except PyError (Layer × S2ZState) :=
  match s.zmqCache with
  | some z => Except.ok (z, s)
  | none =>
    match s.stack with
    | z :: _ => Except.ok (z, { s with zmqCache := some z })
    | [] => Except.error PyError.stopIteration

/-! ## Stream2Zmq.stdout and UTF-8 decoding (lines 117-118)

`Stream2Zmq.stdout` runs `sys.stdout.write(data.decode(errors="replace"))`.
CPython's UTF-8 decoder with `errors="replace"` substitutes U+FFFD for each
maximal subpart of an ill-formed sequence. `utf8DecodeReplace` embeds that
decoder over byte lists; `utf8DecodeStrict` embeds the same decoder without
the `errors` argument (raising, i.e. `none`, on the first ill-formed
sequence). -/

/-- The Unicode replacement character U+FFFD. -/
def replacementChar : Nat := 0xFFFD

/-- Whether a byte is a UTF-8 continuation byte (0x80-0xBF). -/
def utf8Cont (x : Nat) : Bool := decide (0x80 ≤ x ∧ x ≤ 0xBF)

/-- Lower bound of the admissible first continuation byte after lead `b`
(0xA0 after 0xE0, 0x90 after 0xF0, otherwise 0x80). -/
def utf8Cont1Lo (b : Nat) : Nat :=
  if b = 0xE0 then 0xA0 else if b = 0xF0 then 0x90 else 0x80

/-- Upper bound of the admissible first continuation byte after lead `b`
(0x9F after 0xED, 0x8F after 0xF4, otherwise 0xBF). -/
def utf8Cont1Hi (b : Nat) : Nat :=
  if b = 0xED then 0x9F else if b = 0xF4 then 0x8F else 0xBF

/-- Whether `x` is admissible as the first continuation byte after lead
`b`. -/
def utf8Cont1 (b x : Nat) : Bool := decide (utf8Cont1Lo b ≤ x ∧ x ≤ utf8Cont1Hi b)

/-- UTF-8 decoding with `errors="replace"`: total; each maximal ill-formed
subpart becomes one `replacementChar`. -/
def utf8DecodeReplace : List Nat → List Nat
  | [] => []
  | b :: rest =>
    if b ≤ 0x7F then b :: utf8DecodeReplace rest
    else if 0xC2 ≤ b ∧ b ≤ 0xDF then
      match rest with
      | [] => [replacementChar]
      | c :: rest2 =>
        if utf8Cont c then
          ((b - 0xC0) * 0x40 + (c - 0x80)) :: utf8DecodeReplace rest2
        else replacementChar :: utf8DecodeReplace (c :: rest2)
    else if 0xE0 ≤ b ∧ b ≤ 0xEF then
      match rest with
      | [] => [replacementChar]
      | c :: rest2 =>
        if utf8Cont1 b c then
          match rest2 with
          | [] => [replacementChar]
          | d :: rest3 =>
            if utf8Cont d then
              ((b - 0xE0) * 0x1000 + (c - 0x80) * 0x40 + (d - 0x80)) ::
                utf8DecodeReplace rest3
            else replacementChar :: utf8DecodeReplace (d :: rest3)
        else replacementChar :: utf8DecodeReplace (c :: rest2)
    else if 0xF0 ≤ b ∧ b ≤ 0xF4 then
      match rest with
      | [] => [replacementChar]
      | c :: rest2 =>
        if utf8Cont1 b c then
          match rest2 with
          | [] => [replacementChar]
          | d :: rest3 =>
            if utf8Cont d then
              match rest3 with
              | [] => [replacementChar]
              | e :: rest4 =>
                if utf8Cont e then
                  ((b - 0xF0) * 0x40000 + (c - 0x80) * 0x1000 +
                    (d - 0x80) * 0x40 + (e - 0x80)) :: utf8DecodeReplace rest4
                else replacementChar :: utf8DecodeReplace (e :: rest4)
            else replacementChar :: utf8DecodeReplace (d :: rest3)
        else replacementChar :: utf8DecodeReplace (c :: rest2)
    else replacementChar :: utf8DecodeReplace rest

/-- UTF-8 decoding without an `errors` argument: the hypothetical
`data.decode()` that raises `UnicodeDecodeError` (here `none`) on any
ill-formed input. Same branch structure as `utf8DecodeReplace`. -/
def utf8DecodeStrict : List Nat → Option (List Nat)
  | [] => some []
  | b :: rest =>
    if b ≤ 0x7F then (utf8DecodeStrict rest).map (fun u => b :: u)
    else if 0xC2 ≤ b ∧ b ≤ 0xDF then
      match rest with
      | [] => none
      | c :: rest2 =>
        if utf8Cont c then
          (utf8DecodeStrict rest2).map (fun u => ((b - 0xC0) * 0x40 + (c - 0x80)) :: u)
        else none
    else if 0xE0 ≤ b ∧ b ≤ 0xEF then
      match rest with
      | [] => none
      | c :: rest2 =>
        if utf8Cont1 b c then
          match rest2 with
          | [] => none
          | d :: rest3 =>
            if utf8Cont d then
              (utf8DecodeStrict rest3).map
                (fun u => ((b - 0xE0) * 0x1000 + (c - 0x80) * 0x40 + (d - 0x80)) :: u)
            else none
        else none
    else if 0xF0 ≤ b ∧ b ≤ 0xF4 then
      match rest with
      | [] => none
      | c :: rest2 =>
        if utf8Cont1 b c then
          match rest2 with
          | [] => none
          | d :: rest3 =>
            if utf8Cont d then
              match rest3 with
              | [] => none
              | e :: rest4 =>
                if utf8Cont e then
                  (utf8DecodeStrict rest4).map
                    (fun u => ((b - 0xF0) * 0x40000 + (c - 0x80) * 0x1000 +
                      (d - 0x80) * 0x40 + (e - 0x80)) :: u)
                else none
            else none
        else none
    else none

/-- The process-wide `sys.stdout`: the texts written to it so far, each a list
of Unicode code points. -/
structure SysState where
  sysStdoutLog : List (List Nat)
deriving DecidableEq

/-- `Stream2Zmq.stdout` (lines 117-118):
`sys.stdout.write(data.decode(errors="replace"))`. Total — no decoding error
can be raised. -/
def Stream2Zmq.stdoutWrite (s : SysState) (data : List Nat) : SysState :=
  { s with sysStdoutLog := s.sysStdoutLog ++ [utf8DecodeReplace data] }

/-! ## Orchestrator operations and timeout invocations (for the temporal
claim). Only `poll` (line 131) ever calls `self.timeout()`; every other public
operation of `Stream2Zmq` (lines 98-159) performs no such call. -/

/-- One public `Stream2Zmq` operation, together with the transport observations
it runs under (for `poll`). -/
inductive S2ZOp where
  | pollOp (timeout_s : Option ℚ) (st : PollState)
  | encodeOp (data : List Nat)
  | decodeOp (data : List Nat)
  | resetOp
  | recvAllOp (sock : Socket)
  | registerStreamOp
  | isWaitingOp
  | stdoutOp (data : List Nat)
  | closeOp
deriving DecidableEq

/-- How many times a given operation invokes `self.timeout()`: for `poll` the
count of `firedTimeout` events of the embedded `Stream2Zmq.poll`; zero for all
other operations, which contain no call to `timeout` in the source. -/
def Stream2Zmq.timeoutCallsOf : S2ZOp → Nat
  | S2ZOp.pollOp t st =>
    ((Stream2Zmq.poll (fun _ => ()) st t).1.count PollEvent.firedTimeout)
  | _ => 0

/-! ## Helper lemmas -/

/-- The worker writes its backlog to the sink in FIFO order and leaves the
queue empty. -/
theorem workerSteps_spec : ∀ (q : List String) (s : BufferState),
    s.queue = some q →
    InfiniteStdoutBuffer.workerSteps q s =
      { s with queue := some [], stdoutLog := s.stdoutLog ++ q } := by
  intro q
  induction q with
  | nil =>
    intro s h
    cases s
    simp_all [InfiniteStdoutBuffer.workerSteps]
  | cons d rest ih =>
    intro s h
    rw [InfiniteStdoutBuffer.workerSteps,
      ih { s with queue := some rest, stdoutLog := s.stdoutLog ++ [d] } rfl]
    simp

/-- Synchronising with the worker on a live queue drains it to the sink. -/
theorem workerRun_spec (s : BufferState) (q : List String)
    (h : s.queue = some q) :
    InfiniteStdoutBuffer.workerRun s =
      { s with queue := some [], stdoutLog := s.stdoutLog ++ q } := by
  have h2 := workerSteps_spec q s h
  rw [InfiniteStdoutBuffer.workerRun, h]
  exact h2

/-- Full description of the first `close` on an open buffer with backlog
`q`. -/
theorem close_spec (s : BufferState) (q : List String)
    (hc : s.closed = false) (hq : s.queue = some q) :
    InfiniteStdoutBuffer.close s =
      Except.ok
        ({ queue := none, closed := true, stdoutLog := s.stdoutLog ++ q ++ [""],
           stdoutFlushed := true, hasCleanup := s.hasCleanup,
           cleanupRuns := s.cleanupRuns + (if s.hasCleanup then 1 else 0),
           workerAlive := false },
         [CloseEvent.flushPending, CloseEvent.markClosed, CloseEvent.enqueueSentinel,
          CloseEvent.joinWorker, CloseEvent.flushSink] ++
           (if s.hasCleanup then [CloseEvent.runCleanup] else [])) := by
  obtain ⟨qq, cl, log, fl, hcl, cr, wa⟩ := s
  simp only at hc hq
  subst hc
  subst hq
  cases hcl <;>
    simp [InfiniteStdoutBuffer.close, InfiniteStdoutBuffer.flush,
      InfiniteStdoutBuffer.workerRun, workerSteps_spec, List.append_assoc]

/-- The loop of `recvAll` applies the handler once per frame, in order, and
finishes according to the errno of the terminating `ZMQError`. -/
theorem recvAllGo_spec {σ : Type} (f : σ → List Nat → σ) (e : ZmqError) :
    ∀ (l : List (List Nat)) (acc : σ),
    Stream2Zmq.recvAllGo f e acc l =
      if e.errno = zmqEAGAIN then Except.ok (l.foldl f acc) else Except.error e := by
  intro l
  induction l with
  | nil => intro acc; rfl
  | cons fr rest ih => intro acc; rw [Stream2Zmq.recvAllGo, ih, List.foldl]

/-- A poll performed while the last transport activity is more recent than the
configured timeout never fires `self.timeout()`. -/
theorem poll_no_timeout {ρ : Type} (zmqPoll : Option ℚ → ρ) (st : PollState)
    (t : Option ℚ) (h : st.now - st.lastActivity < st.timeoutCfg) :
    (Stream2Zmq.poll zmqPoll st t).1.count PollEvent.firedTimeout = 0 := by
  rw [Stream2Zmq.poll]
  by_cases hw : st.waiting
  · rw [if_pos hw, if_neg (by simp only [not_le]; linarith)]
    simp
  · rw [if_neg hw]
    simp

set_option maxHeartbeats 1600000 in
/-- Agreement of the replacing UTF-8 decoder with the strict one on every
well-formed input. -/
theorem utf8_agree (l : List Nat) : ∀ u : List Nat,
    utf8DecodeStrict l = some u → utf8DecodeReplace l = u := by
  induction l using utf8DecodeStrict.induct <;>
    intro u h <;>
    rw [utf8DecodeStrict.eq_def] at h <;>
    simp only [*, if_true, if_false, ite_true, ite_false, and_self, and_true,
      true_and, Option.map_some, Option.map_none] at h <;>
    first
      | exact Option.noConfusion h
      | (obtain ⟨u1, hu1, rfl⟩ := Option.map_eq_some'.mp h
         rw [utf8DecodeReplace.eq_def]
         simp [*])
      | (rw [utf8DecodeReplace.eq_def]
         exact Option.some_inj.mp h)

/-- The summed `timeout()` invocations of a trace vanish when every poll in it
happens within the configured idle timeout of the last activity. -/
theorem timeoutCalls_sum_zero : ∀ ops : List S2ZOp,
    (∀ (t : Option ℚ) (st : PollState), S2ZOp.pollOp t st ∈ ops →
      st.now - st.lastActivity < st.timeoutCfg) →
    (ops.map Stream2Zmq.timeoutCallsOf).sum = 0 := by
  intro ops
  induction ops with
  | nil => intro _; simp
  | cons op rest ih =>
    intro h
    rw [List.map_cons, List.sum_cons]
    have hrest := ih (fun t st hm => h t st (List.mem_cons_of_mem _ hm))
    have hop : Stream2Zmq.timeoutCallsOf op = 0 := by
      cases op with
      | pollOp t st =>
        have hlt := h t st (List.mem_cons_self _ _)
        simp only [Stream2Zmq.timeoutCallsOf]
        rw [poll_no_timeout (fun _ => ()) st t hlt]
      | encodeOp d => rfl
      | decodeOp d => rfl
      | resetOp => rfl
      | recvAllOp sock => rfl
      | registerStreamOp => rfl
      | isWaitingOp => rfl
      | stdoutOp d => rfl
      | closeOp => rfl
    rw [hop, hrest]

/-- `zmqGet` on a cold cache takes and caches the first stack layer; on a warm
cache it returns the cached layer with the state unchanged. -/
theorem zmqGet_spec (s : S2ZState) :
    (s.zmqCache = none → ∀ (z : Layer) (rest : List Layer), s.stack = z :: rest →
      Stream2Zmq.zmqGet s = Except.ok (z, { s with zmqCache := some z })) ∧
    (∀ z : Layer, s.zmqCache = some z → Stream2Zmq.zmqGet s = Except.ok (z, s)) := by
  obtain ⟨sd, st, zc⟩ := s
  constructor
  · intro hzc z rest hst
    simp only at hzc hst
    subst hzc
    subst hst
    rfl
  · intro z hzc
    simp only at hzc
    subst hzc
    rfl

/-! ## Claims -/

/-- C1 (counterexample): the claim says that a `poll(timeout_s=None)` issued
while `isWaiting()` is false waits for up to the configured default timeout
(here 1); the code instead forwards `None` to the endpoint unchanged, so the
endpoint is polled with no bound rather than with the configured 1. -/
theorem c1_poll_default_counterexample :
    Stream2Zmq.poll (fun a => a) ⟨false, 0, 1, 0⟩ none =
      ([PollEvent.polledEndpoint none], none) ∧
    Stream2Zmq.poll (fun a => a) ⟨false, 0, 1, 0⟩ none ≠
      ([PollEvent.polledEndpoint (some 1)], some 1) := by
  exact ⟨rfl, by decide⟩

/-- C1 (amended): for every call to `Stream2Zmq.poll(timeout_s)` made while
`isWaiting()` is false, the orchestrator neither fires `timeout()` nor
substitutes the configured default: it waits on the Transport Endpoint with
`timeout_s` exactly as given (including `None`) and returns the endpoint's
readiness result. -/
theorem c1_poll_not_waiting {ρ : Type} (zmqPoll : Option ℚ → ρ) (s : PollState)
    (timeout_s : Option ℚ) (hw : s.waiting = false) :
    Stream2Zmq.poll zmqPoll s timeout_s =
      ([PollEvent.polledEndpoint timeout_s], zmqPoll timeout_s) := by
  rw [Stream2Zmq.poll, if_neg (by simp [hw])]

/-- C1 witness: a concrete non-waiting poll forwards its `timeout_s`. -/
theorem c1_poll_not_waiting_witness :
    Stream2Zmq.poll (fun a => a) ⟨false, 0, 1, 0⟩ (some 2) =
      ([PollEvent.polledEndpoint (some 2)], some 2) :=
  c1_poll_not_waiting (fun a => a) ⟨false, 0, 1, 0⟩ (some 2) rfl

/-- C2: while `isWaiting()` is true, `poll` computes
`remaining = lastActivity + configured - now` (with the configured default
substituted for an unspecified `timeout_s`); when `remaining ≤ 0` it invokes
`timeout()` before polling the transport, and otherwise it does not invoke
`timeout()` and polls the transport with `min(timeout_s, remaining)`. -/
theorem c2_poll_waiting {ρ : Type} (zmqPoll : Option ℚ → ρ) (s : PollState)
    (timeout_s : Option ℚ) (hw : s.waiting = true) :
    (s.lastActivity + s.timeoutCfg - s.now ≤ 0 →
      Stream2Zmq.poll zmqPoll s timeout_s =
        ([PollEvent.firedTimeout,
          PollEvent.polledEndpoint (some (timeout_s.getD s.timeoutCfg))],
         zmqPoll (some (timeout_s.getD s.timeoutCfg)))) ∧
    (0 < s.lastActivity + s.timeoutCfg - s.now →
      Stream2Zmq.poll zmqPoll s timeout_s =
        ([PollEvent.polledEndpoint
            (some (min (timeout_s.getD s.timeoutCfg)
              (s.lastActivity + s.timeoutCfg - s.now)))],
         zmqPoll (some (min (timeout_s.getD s.timeoutCfg)
           (s.lastActivity + s.timeoutCfg - s.now))))) := by
  constructor
  · intro h
    simp [Stream2Zmq.poll, hw, h]
  · intro h
    have hn : ¬(s.lastActivity + s.timeoutCfg - s.now ≤ 0) := not_le.mpr h
    simp [Stream2Zmq.poll, hw, hn]

/-- C2 witness: with configured timeout 1, last activity at 0 and now 5, the
expired poll fires `timeout()` first and then polls; with configured timeout
10 the unexpired poll waits `min(2, 5) = 2` and fires nothing. -/
theorem c2_poll_waiting_witness :
    Stream2Zmq.poll (fun a => a) ⟨true, 0, 1, 5⟩ (some 3) =
      ([PollEvent.firedTimeout, PollEvent.polledEndpoint (some 3)], some 3) ∧
    Stream2Zmq.poll (fun a => a) ⟨true, 0, 10, 5⟩ (some 2) =
      ([PollEvent.polledEndpoint (some 2)], some 2) := by
  constructor
  · exact (c2_poll_waiting (fun a => a) ⟨true, 0, 1, 5⟩ (some 3) rfl).1 (by norm_num)
  · have h := (c2_poll_waiting (fun a => a) ⟨true, 0, 10, 5⟩ (some 2) rfl).2 (by norm_num)
    rw [h]
    norm_num [min_def]

/-- C3: `recvAll` repeatedly performs a non-blocking receive and invokes the
handler `f` on each received frame, in order (the `foldl`); when the
terminating `ZMQError` has errno EAGAIN, `recvAll` returns normally with the
handler having run exactly once per frame, and any other `ZMQError` propagates
to the caller unmodified. -/
theorem c3_recvAll {σ : Type} (sock : Socket) (f : σ → List Nat → σ) (acc : σ) :
    (sock.raisedError.errno = zmqEAGAIN →
      Stream2Zmq.recvAll sock f acc = Except.ok (sock.frames.foldl f acc)) ∧
    (sock.raisedError.errno ≠ zmqEAGAIN →
      Stream2Zmq.recvAll sock f acc = Except.error sock.raisedError) := by
  constructor <;> intro h <;> rw [Stream2Zmq.recvAll, recvAllGo_spec] <;> simp [h]

/-- C3 witness: a socket yielding two frames then EAGAIN leaves the handler
applied exactly twice in order; a socket failing with errno 5 propagates the
error. -/
theorem c3_recvAll_witness :
    Stream2Zmq.recvAll ⟨[[1, 2], [3]], ⟨11⟩⟩ (fun l fr => l ++ [fr])
        ([] : List (List Nat)) = Except.ok [[1, 2], [3]] ∧
    Stream2Zmq.recvAll ⟨[[1, 2], [3]], ⟨5⟩⟩ (fun l fr => l ++ [fr])
        ([] : List (List Nat)) = Except.error ⟨5⟩ := by
  constructor
  · exact (c3_recvAll ⟨[[1, 2], [3]], ⟨11⟩⟩ (fun l fr => l ++ [fr]) []).1 rfl
  · exact (c3_recvAll ⟨[[1, 2], [3]], ⟨5⟩⟩ (fun l fr => l ++ [fr]) []).2 (by decide)

/-- C4: the first `close()` on an open buffer performs, in this order: flush
all pending chunks, mark closed, enqueue the empty-chunk wakeup sentinel, join
the worker thread, flush the underlying sink, and invoke the cleanup callback
when one was provided; afterwards the sink log is the previous log followed by
every queued chunk (FIFO) and then the empty sentinel, so every chunk written
before `close()` is observed at the sink exactly once before it returns (the
trailing write is the zero-length sentinel). -/
theorem c4_close_steps (s : BufferState) (q : List String)
    (hc : s.closed = false) (hq : s.queue = some q) :
    InfiniteStdoutBuffer.close s =
      Except.ok
        ({ queue := none, closed := true, stdoutLog := s.stdoutLog ++ q ++ [""],
           stdoutFlushed := true, hasCleanup := s.hasCleanup,
           cleanupRuns := s.cleanupRuns + (if s.hasCleanup then 1 else 0),
           workerAlive := false },
         [CloseEvent.flushPending, CloseEvent.markClosed, CloseEvent.enqueueSentinel,
          CloseEvent.joinWorker, CloseEvent.flushSink] ++
           (if s.hasCleanup then [CloseEvent.runCleanup] else [])) ∧
    (∀ c : String, (s.stdoutLog ++ q ++ [""]).count c =
      (s.stdoutLog ++ q).count c + (if c = "" then 1 else 0)) := by
  refine ⟨close_spec s q hc hq, ?_⟩
  intro c
  by_cases hce : c = ""
  · subst hce
    simp [List.count_append]
    omega
  · simp [List.count_append, List.count_singleton', hce]

/-- C4 witness: closing a buffer with backlog `["a", "b"]`, one chunk already
at the sink and a cleanup callback. -/
theorem c4_close_steps_witness :
    InfiniteStdoutBuffer.close
        { queue := some ["a", "b"], closed := false, stdoutLog := ["x"],
          stdoutFlushed := false, hasCleanup := true, cleanupRuns := 0,
          workerAlive := true } =
      Except.ok
        ({ queue := none, closed := true, stdoutLog := ["x", "a", "b", ""],
           stdoutFlushed := true, hasCleanup := true, cleanupRuns := 1,
           workerAlive := false },
         [CloseEvent.flushPending, CloseEvent.markClosed, CloseEvent.enqueueSentinel,
          CloseEvent.joinWorker, CloseEvent.flushSink, CloseEvent.runCleanup]) :=
  (c4_close_steps _ ["a", "b"] rfl rfl).1

/-- C5: while the buffer is open, `write(chunk)` enqueues the chunk for the
background worker and returns, with nothing reaching the underlying sink; once
the closing sequence has set the closed flag, `write(chunk)` instead writes
synchronously and directly to the sink. -/
theorem c5_write_modes (s : BufferState) (data : String) :
    (∀ q : List String, s.closed = false → s.queue = some q →
      InfiniteStdoutBuffer.write s data =
        Except.ok { s with queue := some (q ++ [data]) }) ∧
    (s.closed = true →
      InfiniteStdoutBuffer.write s data =
        Except.ok { s with stdoutLog := s.stdoutLog ++ [data] }) := by
  constructor
  · intro q hc hq
    rw [InfiniteStdoutBuffer.write, if_neg (by simp [hc]), hq]
  · intro hc
    rw [InfiniteStdoutBuffer.write, if_pos hc]

/-- C5 witness: an open buffer enqueues `"b"` without touching the sink; a
closed buffer writes `"c"` directly to the sink. -/
theorem c5_write_modes_witness :
    InfiniteStdoutBuffer.write
        { queue := some ["a"], closed := false, stdoutLog := [],
          stdoutFlushed := false, hasCleanup := false, cleanupRuns := 0,
          workerAlive := true } "b" =
      Except.ok
        { queue := some ["a", "b"], closed := false, stdoutLog := [],
          stdoutFlushed := false, hasCleanup := false, cleanupRuns := 0,
          workerAlive := true } ∧
    InfiniteStdoutBuffer.write
        { queue := none, closed := true, stdoutLog := ["x"],
          stdoutFlushed := true, hasCleanup := false, cleanupRuns := 0,
          workerAlive := false } "c" =
      Except.ok
        { queue := none, closed := true, stdoutLog := ["x", "c"],
          stdoutFlushed := true, hasCleanup := false, cleanupRuns := 0,
          workerAlive := false } :=
  ⟨(c5_write_modes _ "b").1 ["a"] rfl rfl, (c5_write_modes _ "c").2 rfl⟩

/-- C6: `close()` is idempotent — on the state produced by a first `close()`,
a second `close()` (and likewise finalization via `__del__`) returns at once
with the state unchanged and an empty step list: no chunk is written twice,
the cleanup callback does not run again, and no error is raised. -/
theorem c6_close_idempotent (s : BufferState) (q : List String)
    (s1 : BufferState) (ev : List CloseEvent)
    (hc : s.closed = false) (hq : s.queue = some q)
    (h : InfiniteStdoutBuffer.close s = Except.ok (s1, ev)) :
    InfiniteStdoutBuffer.close s1 = Except.ok (s1, []) ∧
    InfiniteStdoutBuffer.del s1 = Except.ok (s1, []) := by
  have hspec := close_spec s q hc hq
  rw [h] at hspec
  simp only [Except.ok.injEq, Prod.mk.injEq] at hspec
  obtain ⟨hs1, hev⟩ := hspec
  subst hs1
  constructor
  · rw [InfiniteStdoutBuffer.close, if_pos rfl]
  · rw [InfiniteStdoutBuffer.del, InfiniteStdoutBuffer.close, if_pos rfl]

/-- C6 witness: closing the concrete already-closed state produced by a first
close is a no-op. -/
theorem c6_close_idempotent_witness :
    InfiniteStdoutBuffer.close
        { queue := none, closed := true, stdoutLog := ["a", ""],
          stdoutFlushed := true, hasCleanup := false, cleanupRuns := 0,
          workerAlive := false } =
      Except.ok
        ({ queue := none, closed := true, stdoutLog := ["a", ""],
           stdoutFlushed := true, hasCleanup := false, cleanupRuns := 0,
           workerAlive := false }, []) :=
  (c6_close_idempotent
    { queue := some ["a"], closed := false, stdoutLog := [],
      stdoutFlushed := false, hasCleanup := false, cleanupRuns := 0,
      workerAlive := true }
    ["a"] _ _ rfl rfl rfl).1

/-- C7: in any execution trace of orchestrator operations in which every poll
happens strictly within the configured timeout of the last transport activity,
`timeout()` is never invoked; and no operation other than `poll` ever invokes
`timeout()`. -/
theorem c7_no_premature_timeout (ops : List S2ZOp)
    (h : ∀ (t : Option ℚ) (st : PollState), S2ZOp.pollOp t st ∈ ops →
      st.now - st.lastActivity < st.timeoutCfg) :
    (ops.map Stream2Zmq.timeoutCallsOf).sum = 0 ∧
    (∀ op ∈ ops, (∀ (t : Option ℚ) (st : PollState), op ≠ S2ZOp.pollOp t st) →
      Stream2Zmq.timeoutCallsOf op = 0) := by
  refine ⟨timeoutCalls_sum_zero ops h, ?_⟩
  intro op _ hnp
  cases op with
  | pollOp t st => exact absurd rfl (hnp t st)
  | encodeOp d => rfl
  | decodeOp d => rfl
  | resetOp => rfl
  | recvAllOp sock => rfl
  | registerStreamOp => rfl
  | isWaitingOp => rfl
  | stdoutOp d => rfl
  | closeOp => rfl

/-- C7 witness: a concrete trace of two active polls and an encode performs no
`timeout()` invocation. -/
theorem c7_no_premature_timeout_witness :
    (([S2ZOp.pollOp (some 1) ⟨true, 10, 2, 11⟩, S2ZOp.encodeOp [1],
       S2ZOp.pollOp none ⟨false, 3, 5, 4⟩]).map Stream2Zmq.timeoutCallsOf).sum
      = 0 := by
  refine (c7_no_premature_timeout _ ?_).1
  intro t st hm
  simp only [List.mem_cons, List.not_mem_nil, or_false] at hm
  rcases hm with h1 | h1 | h1
  · injection h1 with h1t h1s
    subst h1s
    norm_num
  · simp at h1
  · injection h1 with h1t h1s
    subst h1s
    norm_num

/-- C8: `reset()` rebuilds the stack from the stored specification string via
the (external) stack builder, installs the orchestrator's output write
function on every terminal layer of the new chain, and invalidates the cached
endpoint; afterwards the first `zmq` access takes the chain's first layer and
caches it, and later accesses return the cached layer unchanged. -/
theorem c8_reset_installs (build : String → List Layer) (s : S2ZState) :
    (Stream2Zmq.reset build s).stack =
      (build s.stackDef).map Stream2Zmq.installFdout ∧
    (∀ l ∈ (Stream2Zmq.reset build s).stack,
      l.kind = LayerKind.terminalLayer → l.fdout = some Sink.orchestratorStdout) ∧
    (Stream2Zmq.reset build s).zmqCache = none ∧
    (∀ (z : Layer) (rest : List Layer),
      (Stream2Zmq.reset build s).stack = z :: rest →
      Stream2Zmq.zmqGet (Stream2Zmq.reset build s) =
        Except.ok (z, { Stream2Zmq.reset build s with zmqCache := some z }) ∧
      Stream2Zmq.zmqGet { Stream2Zmq.reset build s with zmqCache := some z } =
        Except.ok (z, { Stream2Zmq.reset build s with zmqCache := some z })) := by
  refine ⟨rfl, ?_, rfl, ?_⟩
  · intro l hl hk
    simp only [Stream2Zmq.reset] at hl
    obtain ⟨a, ha, rfl⟩ := List.mem_map.mp hl
    rw [Stream2Zmq.installFdout] at hk ⊢
    by_cases hak : a.kind = LayerKind.terminalLayer
    · simp [hak]
    · rw [if_neg hak] at hk
      exact absurd hk hak
  · intro z rest hzr
    exact ⟨(zmqGet_spec _).1 rfl z rest hzr, (zmqGet_spec _).2 z rfl⟩

/-- C8 witness: with a two-layer builder, reset installs the stdout sink on
the terminal layer and the first `zmq` access caches the first layer. -/
theorem c8_reset_installs_witness :
    Stream2Zmq.zmqGet
        (Stream2Zmq.reset
          (fun _ => [⟨LayerKind.zmqLayer, none⟩, ⟨LayerKind.terminalLayer, none⟩])
          ⟨"zmq=*:19026,ascii,term", [], none⟩) =
      Except.ok (⟨LayerKind.zmqLayer, none⟩,
        { Stream2Zmq.reset
            (fun _ => [⟨LayerKind.zmqLayer, none⟩, ⟨LayerKind.terminalLayer, none⟩])
            ⟨"zmq=*:19026,ascii,term", [], none⟩ with
          zmqCache := some ⟨LayerKind.zmqLayer, none⟩ }) ∧
    (⟨LayerKind.terminalLayer, some Sink.orchestratorStdout⟩ : Layer).fdout =
      some Sink.orchestratorStdout := by
  constructor
  · exact ((c8_reset_installs
      (fun _ => [⟨LayerKind.zmqLayer, none⟩, ⟨LayerKind.terminalLayer, none⟩])
      ⟨"zmq=*:19026,ascii,term", [], none⟩).2.2.2
      ⟨LayerKind.zmqLayer, none⟩
      [⟨LayerKind.terminalLayer, some Sink.orchestratorStdout⟩] rfl).1
  · exact (c8_reset_installs
      (fun _ => [⟨LayerKind.zmqLayer, none⟩, ⟨LayerKind.terminalLayer, none⟩])
      ⟨"zmq=*:19026,ascii,term", [], none⟩).2.1
      ⟨LayerKind.terminalLayer, some Sink.orchestratorStdout⟩ (by decide) rfl

/-- C9: `Stream2Zmq.stdout(data)` never raises a decoding error: for every
byte sequence, including ill-formed UTF-8, it writes the `errors="replace"`
decoding of `data` to the process-wide output sink, and on every byte sequence
the strict decoder accepts, the replacing decoder produces that same text. -/
theorem c9_stdout_never_raises (s : SysState) (data : List Nat) :
    Stream2Zmq.stdoutWrite s data =
      { s with sysStdoutLog := s.sysStdoutLog ++ [utf8DecodeReplace data] } ∧
    (∀ u : List Nat, utf8DecodeStrict data = some u → utf8DecodeReplace data = u) :=
  ⟨rfl, fun u h => utf8_agree data u h⟩

/-- C9 witness: an ill-formed byte sequence is decoded with replacement
characters and written (no error), and a well-formed sequence decodes to its
strict decoding. -/
theorem c9_stdout_never_raises_witness :
    Stream2Zmq.stdoutWrite ⟨[]⟩ [0xFF, 0x41, 0xE2, 0x82] =
      ⟨[[0xFFFD, 0x41, 0xFFFD]]⟩ ∧
    utf8DecodeReplace [0xE2, 0x82, 0xAC] = [0x20AC] := by
  constructor
  · exact (c9_stdout_never_raises ⟨[]⟩ [0xFF, 0x41, 0xE2, 0x82]).1
  · exact (c9_stdout_never_raises ⟨[]⟩ [0xE2, 0x82, 0xAC]).2 [0x20AC] (by decide)

/-- C10: after `close()` completes, the internal queue has been discarded
(`None`), so a subsequent `flush()` raises an `AttributeError` instead of
returning normally, while `write()` on the same closed buffer still succeeds
by writing directly to the sink. -/
theorem c10_flush_after_close (s : BufferState) (q : List String)
    (s1 : BufferState) (ev : List CloseEvent)
    (hc : s.closed = false) (hq : s.queue = some q)
    (h : InfiniteStdoutBuffer.close s = Except.ok (s1, ev)) :
    s1.queue = none ∧
    InfiniteStdoutBuffer.flush s1 = Except.error PyError.attributeError ∧
    (∀ d : String, InfiniteStdoutBuffer.write s1 d =
      Except.ok { s1 with stdoutLog := s1.stdoutLog ++ [d] }) := by
  have hspec := close_spec s q hc hq
  rw [h] at hspec
  simp only [Except.ok.injEq, Prod.mk.injEq] at hspec
  obtain ⟨hs1, hev⟩ := hspec
  subst hs1
  refine ⟨rfl, rfl, ?_⟩
  intro d
  rw [InfiniteStdoutBuffer.write, if_pos rfl]

/-- C10 witness: on the concrete closed state, flush raises and write still
appends to the sink. -/
theorem c10_flush_after_close_witness :
    InfiniteStdoutBuffer.flush
        { queue := none, closed := true, stdoutLog := ["a", ""],
          stdoutFlushed := true, hasCleanup := false, cleanupRuns := 0,
          workerAlive := false } = Except.error PyError.attributeError ∧
    InfiniteStdoutBuffer.write
        { queue := none, closed := true, stdoutLog := ["a", ""],
          stdoutFlushed := true, hasCleanup := false, cleanupRuns := 0,
          workerAlive := false } "z" =
      Except.ok
        { queue := none, closed := true, stdoutLog := ["a", "", "z"],
          stdoutFlushed := true, hasCleanup := false, cleanupRuns := 0,
          workerAlive := false } := by
  constructor
  · exact (c10_flush_after_close
      { queue := some ["a"], closed := false, stdoutLog := [],
        stdoutFlushed := false, hasCleanup := false, cleanupRuns := 0,
        workerAlive := true } ["a"] _ _ rfl rfl rfl).2.1
  · exact (c10_flush_after_close
      { queue := some ["a"], closed := false, stdoutLog := [],
        stdoutFlushed := false, hasCleanup := false, cleanupRuns := 0,
        workerAlive := true } ["a"] _ _ rfl rfl rfl).2.2 "z"

end LibstoredEd2
